import Mathlib

/-!
Verification of the BTS7960 / IBT-2 ESP32 motor controller
(src/BTS7960_esp32_controller.ino).

The program has one class, MyMotor, with a constructor that configures the
MCPWM peripheral (1 kHz, up-counter, duty mode 0 = active high, both compare
values 0), and one method setSpeed(int) that clamps its argument to
[-100, 100], computes dutyCycle = abs(speed), and dispatches on the sign of
the clamped speed: positive writes (A := duty, B := 0) and prints a
"Forward Speed" line, negative writes (A := 0, B := duty) and prints a
"Reverse Speed" line, zero writes (A := 0, B := 0) and prints "Motor
Stopped".  The Arduino loop() runs a fixed ramp demo.

All duty values the program ever produces are integers 0..100; the C float
variable dutyCycle only ever holds the exact integer abs(clamped speed), so
the embedding uses Int for duties.
-/

namespace BTS7960

/-- The two MCPWM operator outputs used by the program: MCPWM_OPR_A drives
the forward (RPWM) channel and MCPWM_OPR_B the reverse (LPWM) channel. -/
inductive Operator
  | opA
  | opB
deriving DecidableEq, Repr

/-- One call to mcpwm_set_duty: which operator, and the duty percentage
written. -/
structure DutyWrite where
  op : Operator
  duty : Int
deriving DecidableEq, Repr

/-- The duty cycles currently latched on the two channels: fwdDuty is the
MCPWM0A (RPWM) duty and revDuty the MCPWM0B (LPWM) duty. -/
structure ChannelState where
  fwdDuty : Int
  revDuty : Int
deriving DecidableEq, Repr

/-- One serial status line, as produced by the three print branches of
setSpeed.  forwardSpeed n renders as "Forward Speed: n%", reverseSpeed n as
"Reverse Speed: n%", motorStopped as "Motor Stopped"; n is the value the
code passes to Serial.print. -/
inductive StatusLine
  | forwardSpeed (n : Int)
  | reverseSpeed (n : Int)
  | motorStopped
deriving DecidableEq, Repr

/-- The text of a status line exactly as the serial port receives it. -/
def renderLine : StatusLine → String
  | StatusLine.forwardSpeed n => "Forward Speed: " ++ toString n ++ "%"
  | StatusLine.reverseSpeed n => "Reverse Speed: " ++ toString n ++ "%"
  | StatusLine.motorStopped => "Motor Stopped"

/-- Lines 103-104 of setSpeed: saturating clamp of the argument to
[-100, 100].  First raise values below -100, then lower values above 100. -/
def clampSpeed (speed : Int) : Int :=
  let s1 := if speed < -100 then -100 else speed
  if s1 > 100 then 100 else s1

/-- The outcome of one setSpeed call: the channel state it leaves behind,
the mcpwm_set_duty calls it issued in order, and the serial lines it
printed. -/
structure SetSpeedResult where
  state : ChannelState
  writes : List DutyWrite
  lines : List StatusLine
deriving DecidableEq, Repr

/-- Lines 107-139 of setSpeed: the part after the clamp.  dutyCycle is
abs(speed); the sign of the (already clamped) speed selects the branch. -/
def setSpeedClamped (speed : Int) : SetSpeedResult :=
  let dutyCycle : Int := |speed|
  if speed > 0 then
    { state := { fwdDuty := dutyCycle, revDuty := 0 },
      writes := [⟨Operator.opA, dutyCycle⟩, ⟨Operator.opB, 0⟩],
      lines := [StatusLine.forwardSpeed speed] }
  else if speed < 0 then
    { state := { fwdDuty := 0, revDuty := dutyCycle },
      writes := [⟨Operator.opA, 0⟩, ⟨Operator.opB, dutyCycle⟩],
      lines := [StatusLine.reverseSpeed speed] }
  else
    { state := { fwdDuty := 0, revDuty := 0 },
      writes := [⟨Operator.opA, 0⟩, ⟨Operator.opB, 0⟩],
      lines := [StatusLine.motorStopped] }

/-- MyMotor::setSpeed (lines 101-140): clamp, then dispatch on sign. -/
def setSpeed (speed : Int) : SetSpeedResult :=
  setSpeedClamped (clampSpeed speed)

/-- MCPWM counter modes used: the constructor selects MCPWM_UP_COUNTER. -/
inductive CounterMode
  | upCounter
deriving DecidableEq, Repr

/-- MCPWM duty modes used: the constructor selects MCPWM_DUTY_MODE_0, which
the driver defines (and the source comments note) as active-high output. -/
inductive DutyMode
  | mode0
deriving DecidableEq, Repr

/-- Whether a duty mode gives active-high output polarity: true exactly for
MCPWM_DUTY_MODE_0. -/
def DutyMode.activeHigh : DutyMode → Bool
  | DutyMode.mode0 => true

/-- The mcpwm_config_t structure the constructor fills in (lines 79-84):
frequency in Hz, initial compare (duty) values for operators A and B in
percent, counter mode and duty mode. -/
structure McpwmConfig where
  frequency : Int
  cmpr_a : Int
  cmpr_b : Int
  counter_mode : CounterMode
  duty_mode : DutyMode
deriving DecidableEq, Repr

/-- Result of running the MyMotor constructor (lines 67-88): the stored
pins, the timer configuration passed to mcpwm_init, and the channel duties
it establishes (cmpr_a and cmpr_b, both 0%). -/
structure MyMotorInit where
  forwardPin : Int
  reversePin : Int
  config : McpwmConfig
  state : ChannelState
deriving DecidableEq, Repr

/-- MyMotor::MyMotor(forwardPin, reversePin): bind the pins, configure
Unit 0 / Timer 0 at 1 kHz, up-counting, duty mode 0 (active high), both
channels starting at 0% duty. -/
def mkMyMotor (forwardPin reversePin : Int) : MyMotorInit :=
  { forwardPin := forwardPin
    reversePin := reversePin
    config :=
      { frequency := 1000
        cmpr_a := 0
        cmpr_b := 0
        counter_mode := CounterMode.upCounter
        duty_mode := DutyMode.mode0 }
    state := { fwdDuty := 0, revDuty := 0 } }

/-- The channel state right after the global instance MyMotor motor(4, 15)
is constructed. -/
def initState : ChannelState := (mkMyMotor 4 15).state

/-- The channel state left by one setSpeed call.  setSpeed writes both
channel duties unconditionally, so the previous state is overwritten. -/
def step (_st : ChannelState) (speed : Int) : ChannelState :=
  (setSpeed speed).state

/-- Channel state after a sequence of setSpeed calls starting from the
freshly constructed motor. -/
def runCalls (calls : List Int) : ChannelState :=
  calls.foldl step initState

/-- The channel state together with the serial lines produced by one
setSpeed call from a given prior state. -/
def stepFull (_st : ChannelState) (speed : Int) : ChannelState × List StatusLine :=
  ((setSpeed speed).state, (setSpeed speed).lines)

/-- The three direction states of the spec's state machine. -/
inductive Direction
  | forward
  | reverse
  | stopped
deriving DecidableEq, Repr

/-- Direction encoded by the sign of a setSpeed argument. -/
def signDirection (s : Int) : Direction :=
  if s > 0 then Direction.forward
  else if s < 0 then Direction.reverse
  else Direction.stopped

/-- Direction read off a channel state: forward when the forward channel is
driven, reverse when the reverse channel is driven, stopped otherwise. -/
def stateDirection (st : ChannelState) : Direction :=
  if st.fwdDuty > 0 then Direction.forward
  else if st.revDuty > 0 then Direction.reverse
  else Direction.stopped

/-- The direction a status line announces. -/
def lineDirection : StatusLine → Direction
  | StatusLine.forwardSpeed _ => Direction.forward
  | StatusLine.reverseSpeed _ => Direction.reverse
  | StatusLine.motorStopped => Direction.stopped

/-- The numeric value a status line shows, when it shows one. -/
def lineValue : StatusLine → Option Int
  | StatusLine.forwardSpeed n => some n
  | StatusLine.reverseSpeed n => some n
  | StatusLine.motorStopped => none

/-- Magnitude of the current speed after a setSpeed call: the absolute
value of the clamped argument. -/
def magnitude (s : Int) : Int := |clampSpeed s|

/-- Status line as the spec's words describe it: it names the current
direction and shows the magnitude of the current speed. -/
def specStatusLine (s : Int) : StatusLine :=
  match signDirection s with
  | Direction.forward => StatusLine.forwardSpeed (magnitude s)
  | Direction.reverse => StatusLine.reverseSpeed (magnitude s)
  | Direction.stopped => StatusLine.motorStopped

/-- Status line the code actually prints: the forward line shows the
magnitude, the reverse line shows the signed clamped speed (a negative
number), the stop line shows no number. -/
def codeStatusLine (s : Int) : StatusLine :=
  match signDirection s with
  | Direction.forward => StatusLine.forwardSpeed (magnitude s)
  | Direction.reverse => StatusLine.reverseSpeed (-(magnitude s))
  | Direction.stopped => StatusLine.motorStopped

/-- The forward ramp of loop() (lines 187-190): speed runs 0, 10, ..., 100. -/
def rampFwdUp : List Int := (List.range 11).map (fun i => (i : Int) * 10)

/-- The forward ramp-down of loop() (lines 197-200): 100, 90, ..., 0. -/
def rampFwdDown : List Int := (List.range 11).map (fun i => 100 - (i : Int) * 10)

/-- The reverse ramp of loop() (lines 207-210): 0, -10, ..., -100. -/
def rampRevUp : List Int := (List.range 11).map (fun i => -((i : Int) * 10))

/-- The reverse ramp-down of loop() (lines 217-220): -100, -90, ..., 0. -/
def rampRevDown : List Int := (List.range 11).map (fun i => -100 + (i : Int) * 10)

/-- The setSpeed arguments issued, in order, by one execution of loop(). -/
def demoSpeeds : List Int := rampFwdUp ++ rampFwdDown ++ rampRevUp ++ rampRevDown

/-- The (forward, reverse) duty pairs produced, in order, by one execution
of loop(). -/
def demoDutyPairs : List (Int × Int) :=
  demoSpeeds.map (fun s => ((setSpeed s).state.fwdDuty, (setSpeed s).state.revDuty))

/-- The spec's mutual-exclusion invariant: at most one of the two channels
has a nonzero duty. -/
def mutexInvariant (st : ChannelState) : Prop :=
  st.fwdDuty = 0 ∨ st.revDuty = 0

instance (st : ChannelState) : Decidable (mutexInvariant st) := by
  unfold mutexInvariant
  infer_instance

/- ------------------------------------------------------------------ -/
/- Helper lemmas -/
/- ------------------------------------------------------------------ -/

theorem clampSpeed_of_mem {s : Int} (h1 : -100 ≤ s) (h2 : s ≤ 100) :
    clampSpeed s = s := by
  simp only [clampSpeed]
  split_ifs <;> omega

theorem clampSpeed_of_high {s : Int} (h : 100 < s) : clampSpeed s = 100 := by
  simp only [clampSpeed]
  split_ifs <;> omega

theorem clampSpeed_of_low {s : Int} (h : s < -100) : clampSpeed s = -100 := by
  simp only [clampSpeed]
  split_ifs <;> omega

theorem clampSpeed_le : ∀ s : Int, clampSpeed s ≤ 100 := by
  intro s
  simp only [clampSpeed]
  split_ifs <;> omega

theorem clampSpeed_ge : ∀ s : Int, -100 ≤ clampSpeed s := by
  intro s
  simp only [clampSpeed]
  split_ifs <;> omega

theorem clampSpeed_pos_iff {s : Int} : 0 < clampSpeed s ↔ 0 < s := by
  simp only [clampSpeed]
  split_ifs <;> omega

theorem clampSpeed_neg_iff {s : Int} : clampSpeed s < 0 ↔ s < 0 := by
  simp only [clampSpeed]
  split_ifs <;> omega

theorem setSpeedClamped_of_pos {c : Int} (h : 0 < c) :
    setSpeedClamped c =
      { state := { fwdDuty := c, revDuty := 0 },
        writes := [⟨Operator.opA, c⟩, ⟨Operator.opB, 0⟩],
        lines := [StatusLine.forwardSpeed c] } := by
  simp [setSpeedClamped, h, abs_of_pos h]

theorem setSpeedClamped_of_neg {c : Int} (h : c < 0) :
    setSpeedClamped c =
      { state := { fwdDuty := 0, revDuty := -c },
        writes := [⟨Operator.opA, 0⟩, ⟨Operator.opB, -c⟩],
        lines := [StatusLine.reverseSpeed c] } := by
  have h' : ¬ c > 0 := by omega
  simp [setSpeedClamped, h, h', abs_of_neg h]

theorem setSpeedClamped_of_zero :
    setSpeedClamped 0 =
      { state := { fwdDuty := 0, revDuty := 0 },
        writes := [⟨Operator.opA, 0⟩, ⟨Operator.opB, 0⟩],
        lines := [StatusLine.motorStopped] } := by
  simp [setSpeedClamped]

theorem setSpeed_state_eq (s : Int) :
    (setSpeed s).state =
      { fwdDuty := max (clampSpeed s) 0, revDuty := max (-(clampSpeed s)) 0 } := by
  rcases lt_trichotomy (clampSpeed s) 0 with h | h | h
  · rw [setSpeed, setSpeedClamped_of_neg h]
    simp only [ChannelState.mk.injEq]
    omega
  · rw [setSpeed, h, setSpeedClamped_of_zero]
    simp only [ChannelState.mk.injEq]
    omega
  · rw [setSpeed, setSpeedClamped_of_pos h]
    simp only [ChannelState.mk.injEq]
    omega

theorem setSpeed_fwdDuty (s : Int) :
    (setSpeed s).state.fwdDuty = max (clampSpeed s) 0 := by
  rw [setSpeed_state_eq]

theorem setSpeed_revDuty (s : Int) :
    (setSpeed s).state.revDuty = max (-(clampSpeed s)) 0 := by
  rw [setSpeed_state_eq]

theorem stateDirection_setSpeed (s : Int) :
    stateDirection (setSpeed s).state = signDirection s := by
  rw [setSpeed_state_eq, stateDirection, signDirection]
  have hle := clampSpeed_le s
  have hge := clampSpeed_ge s
  rcases lt_trichotomy s 0 with h | h | h
  · have hc : clampSpeed s < 0 := clampSpeed_neg_iff.mpr h
    have h1 : ¬ ((⟨max (clampSpeed s) 0, max (-(clampSpeed s)) 0⟩ : ChannelState).fwdDuty > 0) := by
      simp only []
      omega
    have h2 : (⟨max (clampSpeed s) 0, max (-(clampSpeed s)) 0⟩ : ChannelState).revDuty > 0 := by
      simp only []
      omega
    rw [if_neg h1, if_pos h2, if_neg (by omega), if_pos h]
  · subst h
    have hc : clampSpeed 0 = 0 := clampSpeed_of_mem (by omega) (by omega)
    rw [hc]
    simp
  · have hc : 0 < clampSpeed s := clampSpeed_pos_iff.mpr h
    have h1 : (⟨max (clampSpeed s) 0, max (-(clampSpeed s)) 0⟩ : ChannelState).fwdDuty > 0 := by
      simp only []
      omega
    rw [if_pos h1, if_pos h]

theorem setSpeed_mutex (s : Int) : mutexInvariant (setSpeed s).state := by
  rw [mutexInvariant, setSpeed_state_eq]
  have hle := clampSpeed_le s
  have hge := clampSpeed_ge s
  simp only []
  omega

/- ------------------------------------------------------------------ -/
/- Claim theorems -/
/- ------------------------------------------------------------------ -/

/-- C1: for every integer s in [-100, 100], after setSpeed(s) the
forward-channel duty equals max(s, 0) and the reverse-channel duty equals
max(-s, 0); exactly one of the two channels is nonzero unless s = 0, in
which case both are zero. -/
theorem setSpeed_duties_match_sign (s : Int) (h1 : -100 ≤ s) (h2 : s ≤ 100) :
    (setSpeed s).state.fwdDuty = max s 0 ∧
    (setSpeed s).state.revDuty = max (-s) 0 ∧
    (s = 0 → (setSpeed s).state.fwdDuty = 0 ∧ (setSpeed s).state.revDuty = 0) ∧
    (s ≠ 0 →
      ((setSpeed s).state.fwdDuty ≠ 0 ∧ (setSpeed s).state.revDuty = 0) ∨
      ((setSpeed s).state.fwdDuty = 0 ∧ (setSpeed s).state.revDuty ≠ 0)) := by
  have hc : clampSpeed s = s := clampSpeed_of_mem h1 h2
  have hf := setSpeed_fwdDuty s
  have hr := setSpeed_revDuty s
  rw [hc] at hf hr
  rw [hf, hr]
  exact ⟨rfl, rfl, by omega, by omega⟩

/-- Witness for C1 at s = 37. -/
theorem setSpeed_duties_match_sign_witness :
    (setSpeed 37).state.fwdDuty = max 37 0 ∧
    (setSpeed 37).state.revDuty = max (-37) 0 ∧
    ((37 : Int) = 0 → (setSpeed 37).state.fwdDuty = 0 ∧ (setSpeed 37).state.revDuty = 0) ∧
    ((37 : Int) ≠ 0 →
      ((setSpeed 37).state.fwdDuty ≠ 0 ∧ (setSpeed 37).state.revDuty = 0) ∨
      ((setSpeed 37).state.fwdDuty = 0 ∧ (setSpeed 37).state.revDuty ≠ 0)) :=
  setSpeed_duties_match_sign 37 (by decide) (by decide)

/-- C2: setSpeed saturates out-of-range input rather than rejecting it: for
s above 100 the clamped value used for the duty computation is 100 and the
whole call behaves as setSpeed(100); for s below -100 it is -100 and the
call behaves as setSpeed(-100).  setSpeed is a total function into
SetSpeedResult: there is no error value, error line or exception in its
result type. -/
theorem setSpeed_saturates (s : Int) :
    (s > 100 → clampSpeed s = 100 ∧ setSpeed s = setSpeed 100) ∧
    (s < -100 → clampSpeed s = -100 ∧ setSpeed s = setSpeed (-100)) := by
  constructor
  · intro h
    have hc : clampSpeed s = 100 := clampSpeed_of_high h
    refine ⟨hc, ?_⟩
    rw [setSpeed, hc, setSpeed, show clampSpeed 100 = 100 from by decide]
  · intro h
    have hc : clampSpeed s = -100 := clampSpeed_of_low h
    refine ⟨hc, ?_⟩
    rw [setSpeed, hc, setSpeed, show clampSpeed (-100) = -100 from by decide]

/-- Witness for C2 at s = 150. -/
theorem setSpeed_saturates_witness :
    clampSpeed 150 = 100 ∧ setSpeed 150 = setSpeed 100 :=
  (setSpeed_saturates 150).1 (by decide)

/-- C3: the mutual-exclusion invariant (at most one of the forward and
reverse channels has a nonzero duty) holds in the state established by the
constructor and in the state left by every setSpeed call, from any prior
state. -/
theorem mutex_invariant_always (fp rp : Int) :
    mutexInvariant (mkMyMotor fp rp).state ∧
    ∀ (st : ChannelState) (s : Int), mutexInvariant (step st s) := by
  refine ⟨Or.inl rfl, fun st s => ?_⟩
  exact setSpeed_mutex s

/-- C4: setSpeed is idempotent on the channel state: calling it twice with
the same argument leaves the same state as calling it once, from any
starting state. -/
theorem setSpeed_idempotent (st : ChannelState) (s : Int) :
    step (step st s) s = step st s := rfl

/-- C5: one execution of loop() issues, in order, the duty pairs
(forward, reverse) = (0,0),(10,0),...,(100,0) for the forward ramp up, then
(100,0),(90,0),...,(0,0) for the ramp down, then the mirror sequence
(0,0),(0,10),...,(0,100),(0,100),(0,90),...,(0,0) on the reverse channel,
in steps of 10 percentage points, with the opposite channel at 0
throughout. -/
theorem demo_duty_sequence :
    demoDutyPairs =
      [(0, 0), (10, 0), (20, 0), (30, 0), (40, 0), (50, 0),
       (60, 0), (70, 0), (80, 0), (90, 0), (100, 0),
       (100, 0), (90, 0), (80, 0), (70, 0), (60, 0), (50, 0),
       (40, 0), (30, 0), (20, 0), (10, 0), (0, 0),
       (0, 0), (0, 10), (0, 20), (0, 30), (0, 40), (0, 50),
       (0, 60), (0, 70), (0, 80), (0, 90), (0, 100),
       (0, 100), (0, 90), (0, 80), (0, 70), (0, 60), (0, 50),
       (0, 40), (0, 30), (0, 20), (0, 10), (0, 0)] := by
  decide

/-- C6: after any call sequence the direction read off the channel state is
Forward, Reverse or Stopped according to the sign of the most recent
setSpeed argument, and the state established at construction is Stopped. -/
theorem direction_from_last_call :
    stateDirection (runCalls []) = Direction.stopped ∧
    ∀ (calls : List Int) (s : Int),
      stateDirection (runCalls (calls ++ [s])) = signDirection s := by
  refine ⟨rfl, fun calls s => ?_⟩
  rw [runCalls, List.foldl_append, List.foldl_cons, List.foldl_nil]
  exact stateDirection_setSpeed s

/-- C7: the constructor configures the shared timer at a fixed 1 kHz
switching frequency with active-high output polarity (duty mode 0) and sets
both channel duty cycles to 0%. -/
theorem constructor_config (fp rp : Int) :
    (mkMyMotor fp rp).config.frequency = 1000 ∧
    DutyMode.activeHigh (mkMyMotor fp rp).config.duty_mode = true ∧
    (mkMyMotor fp rp).config.cmpr_a = 0 ∧
    (mkMyMotor fp rp).config.cmpr_b = 0 ∧
    (mkMyMotor fp rp).state.fwdDuty = 0 ∧
    (mkMyMotor fp rp).state.revDuty = 0 :=
  ⟨rfl, rfl, rfl, rfl, rfl, rfl⟩

/-- C8 counterexample: at s = -37 the emitted line is "Reverse Speed: -37%",
whose numeric field is the signed speed -37, not the magnitude 37 that the
claim says the line reports. -/
theorem status_line_magnitude_cex :
    (setSpeed (-37)).lines = [StatusLine.reverseSpeed (-37)] ∧
    specStatusLine (-37) = StatusLine.reverseSpeed 37 ∧
    (setSpeed (-37)).lines ≠ [specStatusLine (-37)] := by
  decide

/-- C8 amended: every call to setSpeed emits exactly one status line; the
line names the current direction, and its numeric field is the signed
clamped speed: the magnitude for forward, the negated magnitude for
reverse, and no number on the stop line. -/
theorem status_line_per_call (s : Int) :
    (setSpeed s).lines = [codeStatusLine s] ∧ (setSpeed s).lines.length = 1 := by
  have hmain : (setSpeed s).lines = [codeStatusLine s] := by
    rcases lt_trichotomy s 0 with h | h | h
    · have hc : clampSpeed s < 0 := clampSpeed_neg_iff.mpr h
      rw [setSpeed, setSpeedClamped_of_neg hc, codeStatusLine, signDirection,
        if_neg (by omega), if_pos h]
      simp only [List.cons.injEq, and_true]
      rw [magnitude, abs_of_neg hc]
      simp only [StatusLine.reverseSpeed.injEq]
      omega
    · subst h
      have hc : clampSpeed 0 = 0 := by decide
      rw [setSpeed, hc, setSpeedClamped_of_zero, codeStatusLine, signDirection]
      simp
    · have hc : 0 < clampSpeed s := clampSpeed_pos_iff.mpr h
      rw [setSpeed, setSpeedClamped_of_pos hc, codeStatusLine, signDirection, if_pos h]
      simp only [List.cons.injEq, and_true]
      rw [magnitude, abs_of_pos hc]
  exact ⟨hmain, by rw [hmain]; rfl⟩

/-- C9: for every integer input s, every duty value that setSpeed passes to
a hardware duty write lies within [0, 100]. -/
theorem duty_writes_in_range (s : Int) (w : DutyWrite)
    (hw : w ∈ (setSpeed s).writes) : 0 ≤ w.duty ∧ w.duty ≤ 100 := by
  have hle := clampSpeed_le s
  have hge := clampSpeed_ge s
  rcases lt_trichotomy (clampSpeed s) 0 with h | h | h
  · rw [setSpeed, setSpeedClamped_of_neg h] at hw
    simp only [List.mem_cons, List.mem_singleton, List.not_mem_nil, or_false] at hw
    rcases hw with rfl | rfl <;> refine ⟨?_, ?_⟩ <;> simp <;> omega
  · rw [setSpeed, h, setSpeedClamped_of_zero] at hw
    simp only [List.mem_cons, List.mem_singleton, List.not_mem_nil, or_false] at hw
    rcases hw with rfl | rfl <;> refine ⟨?_, ?_⟩ <;> simp
  · rw [setSpeed, setSpeedClamped_of_pos h] at hw
    simp only [List.mem_cons, List.mem_singleton, List.not_mem_nil, or_false] at hw
    rcases hw with rfl | rfl <;> refine ⟨?_, ?_⟩ <;> simp <;> omega

/-- Witness for C9 at s = 250 and the first write of that call. -/
theorem duty_writes_in_range_witness :
    0 ≤ (DutyWrite.mk Operator.opA 100).duty ∧
    (DutyWrite.mk Operator.opA 100).duty ≤ 100 :=
  duty_writes_in_range 250 ⟨Operator.opA, 100⟩ (by decide)

/-- C10: setSpeed is history-independent: from any two prior channel
states, the same argument produces the same resulting channel state and
the same status lines. -/
theorem setSpeed_history_independent (st1 st2 : ChannelState) (s : Int) :
    stepFull st1 s = stepFull st2 s := rfl

end BTS7960
